import Mathlib

/-!
Verification development for the WebXR AR object-placement demo
(`src/webxr_test/src/App.jsx`, `src/webxr_test/src/ARScene.jsx`).

The development shallowly embeds the pose-tracking / world-anchoring core:

* the three.js vector/quaternion operations the source calls
  (`Vector3.applyQuaternion`, `Quaternion.invert`, `Quaternion.setFromEuler`
  with rotation order YXZ, `Vector3.setFromMatrixPosition`);
* the per-frame render functions of the two anchored-model components
  (`ARAnchoredModel`, `FallbackAnchoredModel`) and the `Model` dispatch;
* the device-orientation pipeline (`DeviceOrientationTracker`'s event
  handler and `handlePoseUpdate`);
* the placement / session state machine of `App` (`handlePlace` split at
  its `await` boundaries, `handleEnterAR`, `handleExitAR`, `clearScene`,
  the `Reticle` arming logic) as a step function over an explicit state;
* `placeObject` from `ARScene.jsx`.

All geometric data that the state machine merely stores and replays is
over `ℚ` so that concrete runs are decidable; the trigonometric sensor
pipeline is over `ℝ`.
-/

namespace WebXR

/-- A 3-component vector, generic in the scalar type
(three.js `Vector3`). -/
structure Vec3 (K : Type) where
  x : K
  y : K
  z : K
deriving DecidableEq, Repr

/-- A quaternion, generic in the scalar type (three.js `Quaternion`,
components x, y, z, w). -/
structure Quat (K : Type) where
  x : K
  y : K
  z : K
  w : K
deriving DecidableEq, Repr

/-- Componentwise vector subtraction (three.js `Vector3.sub`). -/
def vsub {K : Type} [Ring K] (a b : Vec3 K) : Vec3 K :=
  ⟨a.x - b.x, a.y - b.y, a.z - b.z⟩

/-- three.js `Quaternion.invert`: for a (unit-length) quaternion it just
takes the conjugate, negating the vector part. -/
def quatInvert {K : Type} [Ring K] (q : Quat K) : Quat K :=
  ⟨-q.x, -q.y, -q.z, q.w⟩

/-- three.js `Vector3.applyQuaternion`, transcribed from its source:
`t = 2 * cross(q.xyz, v)`, result `v + q.w * t + cross(q.xyz, t)`. -/
def applyQuaternion {K : Type} [CommRing K] (q : Quat K) (v : Vec3 K) : Vec3 K :=
  let tx := 2 * (q.y * v.z - q.z * v.y)
  let ty := 2 * (q.z * v.x - q.x * v.z)
  let tz := 2 * (q.x * v.y - q.y * v.x)
  ⟨v.x + q.w * tx + q.y * tz - q.z * ty,
   v.y + q.w * ty + q.z * tx - q.x * tz,
   v.z + q.w * tz + q.x * ty - q.y * tx⟩

/-- three.js `Quaternion.setFromEuler` for rotation order `YXZ`
(the order used throughout `App.jsx`), transcribed from its source:
half-angle cosines/sines of the euler components x, y, z. -/
noncomputable def quatFromEulerYXZ (ex ey ez : ℝ) : Quat ℝ :=
  let c1 := Real.cos (ex / 2)
  let c2 := Real.cos (ey / 2)
  let c3 := Real.cos (ez / 2)
  let s1 := Real.sin (ex / 2)
  let s2 := Real.sin (ey / 2)
  let s3 := Real.sin (ez / 2)
  ⟨s1 * c2 * c3 + c1 * s2 * s3,
   c1 * s2 * c3 - s1 * c2 * s3,
   c1 * c2 * s3 - s1 * s2 * c3,
   c1 * c2 * c3 + s1 * s2 * s3⟩

/-- Degrees-to-radians conversion as written in the source:
`deg * Math.PI / 180`. -/
noncomputable def degToRad (deg : ℝ) : ℝ := deg * Real.pi / 180

/-- The camera pose object built by `handlePoseUpdate` and consumed by
`FallbackAnchoredModel`: `{ position, rotation: [x, y, z], quaternion }`.
`quaternion` is optional because `FallbackAnchoredModel` branches on its
presence. -/
structure CameraPose where
  position : Vec3 ℝ
  rotX : ℝ
  rotY : ℝ
  rotZ : ℝ
  quaternion : Option (Quat ℝ)

/-- `handlePoseUpdate` (App.jsx:1032-1052): takes the angles delivered by
the pose-update callback, multiplies each by `Math.PI / 180`, and stores
position `[0,0,0]`, rotation `[beta, alpha, -gamma]` and the quaternion
`setFromEuler(Euler(beta, alpha, -gamma, 'YXZ'))`. -/
noncomputable def handlePoseUpdate (alpha beta gamma : ℝ) : CameraPose :=
  let a := alpha * Real.pi / 180
  let b := beta * Real.pi / 180
  let g := gamma * Real.pi / 180
  { position := ⟨0, 0, 0⟩
    rotX := b
    rotY := a
    rotZ := -g
    quaternion := some (quatFromEulerYXZ b a (-g)) }

/-- A `deviceorientation` event: each angle may be `null`. -/
structure OrientEvent where
  alpha : Option ℝ
  beta : Option ℝ
  gamma : Option ℝ

/-- `handleOrientation` inside `DeviceOrientationTracker`
(App.jsx:421-438): fires the `onPoseUpdate` callback only when all three
angles are non-null, after multiplying each by `Math.PI / 180`. -/
noncomputable def handleOrientation (e : OrientEvent) : Option (ℝ × ℝ × ℝ) :=
  match e.alpha, e.beta, e.gamma with
  | some a, some b, some g => some (a * Real.pi / 180, b * Real.pi / 180, g * Real.pi / 180)
  | _, _, _ => none

/-- The composed orientation pipeline: a sensor event carrying angles in
degrees goes through `DeviceOrientationTracker`'s handler and then
`handlePoseUpdate` (which is the `onPoseUpdate` callback wired in
App.jsx:1441). -/
noncomputable def composedPoseUpdate (e : OrientEvent) : Option CameraPose :=
  match handleOrientation e with
  | some (a, b, g) => some (handlePoseUpdate a b g)
  | none => none

/-- Environment of the `DeviceOrientationTracker` effect
(App.jsx:414-459): whether `window.DeviceOrientationEvent` exists,
whether `DeviceOrientationEvent.requestPermission` is a function, and
what the permission promise yields (`some true` = the string `granted`,
`some false` = any other response, `none` = the promise rejected). -/
structure OrientCtx where
  apiPresent : Bool
  permissionRequestPresent : Bool
  permissionGranted : Option Bool
deriving DecidableEq, Repr

/-- Whether `DeviceOrientationTracker` ever adds the `deviceorientation`
listener: the API must exist, and when `requestPermission` is a function
the promise must resolve to `granted`; on any other response, on
rejection, or with no API, the listener is never installed. -/
def listenerInstalled (c : OrientCtx) : Bool :=
  c.apiPresent && (!c.permissionRequestPresent || c.permissionGranted == some true)

/-- All payloads the tracker delivers to the pose-update callback over a
session, given the sequence of `deviceorientation` events the platform
fires: empty unless the listener was installed. -/
noncomputable def trackerEmissions (c : OrientCtx) (events : List OrientEvent) :
    List (ℝ × ℝ × ℝ) :=
  if listenerInstalled c then events.filterMap handleOrientation else []

/-- `FallbackAnchoredModel`'s per-frame body (App.jsx:244-287): given the
`worldPosition` and `cameraPose` props (each may be absent, in which case
the group position is left at `prev`), subtract the camera position from
the world position and rotate by the inverted quaternion — the stored
quaternion when present, else one built from the euler rotation with
order `YXZ`. -/
noncomputable def fallbackAnchoredModelFrame (worldPosition : Option (Vec3 ℝ))
    (cameraPose : Option CameraPose) (prev : Vec3 ℝ) : Vec3 ℝ :=
  match worldPosition, cameraPose with
  | some wp, some cp =>
    match cp.quaternion with
    | some q => applyQuaternion (quatInvert q) (vsub wp cp.position)
    | none => applyQuaternion (quatInvert (quatFromEulerYXZ cp.rotX cp.rotY cp.rotZ))
        (vsub wp cp.position)
  | _, _ => prev

/-- A three.js `Matrix4`: sixteen entries in column-major element order
(`elements[0]` … `elements[15]`). The state machine only stores, clones
and replays matrices, and extracts the translation, so `ℚ` entries keep
every concrete run decidable. -/
structure Mat where
  e0 : ℚ
  e1 : ℚ
  e2 : ℚ
  e3 : ℚ
  e4 : ℚ
  e5 : ℚ
  e6 : ℚ
  e7 : ℚ
  e8 : ℚ
  e9 : ℚ
  e10 : ℚ
  e11 : ℚ
  e12 : ℚ
  e13 : ℚ
  e14 : ℚ
  e15 : ℚ
deriving DecidableEq, Repr

/-- three.js `Vector3.setFromMatrixPosition`: the translation column,
elements 12, 13, 14. -/
def setFromMatrixPosition (m : Mat) : Vec3 ℚ := ⟨m.e12, m.e13, m.e14⟩

/-- A pure-translation matrix (identity rotation); used to build concrete
hit-test matrices in witnesses. -/
def matT (x y z : ℚ) : Mat :=
  ⟨1, 0, 0, 0, 0, 1, 0, 0, 0, 0, 1, 0, x, y, z, 1⟩

/-- The `anchor` object a placed object may carry (a WebXR `XRAnchor`):
whether its `anchorSpace` is present, and the optional `matrix` field
read by the last branch of `ARAnchoredModel`. -/
structure AnchorObj where
  anchorSpacePresent : Bool
  matrix : Option Mat
deriving DecidableEq, Repr

/-- Per-frame context available inside `ARAnchoredModel`'s `useFrame`
callback: whether an `XRFrame` and a reference space are available, the
result of `xrFrame.getPose(anchor.anchorSpace, referenceSpace)` for this
frame (`none` = null pose), whether that query throws, and the current
viewer pose (which the fixed-matrix path must ignore). -/
structure XRFrameCtx where
  xrFramePresent : Bool
  referenceSpacePresent : Bool
  anchorPose : Option Mat
  poseQueryThrows : Bool
  viewerPose : Mat
deriving DecidableEq, Repr

/-- `ARAnchoredModel`'s per-frame body (App.jsx:138-215). Branch order as
in the source: (1) if the anchor has an `anchorSpace` and the frame/
reference-space/pose queries succeed, output the anchor's pose for this
frame (a throw anywhere in this branch falls through); (2) else if a
fixed matrix was saved from the `hitMatrix` prop, every sub-branch
outputs it unchanged; (3) else if `anchor.matrix` exists, output it;
(4) else leave the group transform at `prev`. -/
def arAnchoredModelFrame (anchor : Option AnchorObj) (fixedMatrix : Option Mat)
    (ctx : XRFrameCtx) (prev : Mat) : Mat :=
  let anchorResult : Option Mat :=
    match anchor with
    | some a =>
      if a.anchorSpacePresent && !ctx.poseQueryThrows && ctx.xrFramePresent
          && ctx.referenceSpacePresent then
        ctx.anchorPose
      else none
    | none => none
  match anchorResult with
  | some m => m
  | none =>
    match fixedMatrix with
    | some fm =>
      -- App.jsx:170-202: whether or not an XRFrame / reference space is
      -- available, every path copies the saved fixed matrix.
      if ctx.xrFramePresent then
        if ctx.referenceSpacePresent then fm else fm
      else fm
    | none =>
      match anchor with
      | some a =>
        match a.matrix with
        | some am => am
        | none => prev
      | none => prev

/-- Which renderer a placed object is routed to. -/
inductive RenderPath
  | arAnchored
  | fallbackAnchored
  | staticPosition
deriving DecidableEq, Repr

/-- The `Model` component's dispatch (App.jsx:315-324): an anchor or a
saved hit matrix routes to `ARAnchoredModel`; else the anchored flag plus
a camera pose routes to `FallbackAnchoredModel`; else a static group. -/
def modelDispatch (anchor : Option AnchorObj) (hitMatrix : Option Mat)
    (anchored : Bool) (cameraPosePresent : Bool) : RenderPath :=
  if anchor.isSome || hitMatrix.isSome then .arAnchored
  else if anchored && cameraPosePresent then .fallbackAnchored
  else .staticPosition

/-- Object kinds selectable in the UI. -/
inductive ObjType
  | model
  | cube
  | sphere
deriving DecidableEq, Repr

/-- An object placed by `ARScene.jsx`'s `placeObject`: its kind and the
matrix copied from the current hit matrix at placement. -/
structure SceneObj where
  type : ObjType
  matrix : Mat
deriving DecidableEq, Repr

/-- `placeObject` (ARScene.jsx:200-242): returns immediately when there
is no current hit matrix or the reticle is not visible; a `model` request
without a URL also places nothing; otherwise appends one object carrying
the current hit matrix. -/
def placeObject (currentHitMatrix : Option Mat) (reticleVisible : Bool)
    (objectType : ObjType) (modelUrl : Option String)
    (objects : List SceneObj) : List SceneObj :=
  match currentHitMatrix with
  | none => objects
  | some m =>
    if !reticleVisible then objects
    else
      match objectType with
      | .cube => objects ++ [⟨.cube, m⟩]
      | .sphere => objects ++ [⟨.sphere, m⟩]
      | .model =>
        match modelUrl with
        | some _ => objects ++ [⟨.model, m⟩]
        | none => objects

/-- A `PlacedObject` as appended by `handlePlace` (App.jsx:1009-1021):
`{ id: Date.now(), type, position, anchored, anchor, hitMatrix,
modelUrl, scale }`. A native anchor is represented by its handle. -/
structure Obj where
  id : Nat
  type : ObjType
  position : Vec3 ℚ
  anchored : Bool
  anchor : Option Nat
  hitMatrix : Option Mat
  modelUrl : Option String
  scale : ℚ
deriving DecidableEq, Repr

/-- Host behaviour visible to one invocation of `handlePlace`: whether
`store.getState().session` is non-null and whether `session.requestAnchor`
exists. (`session.requestReferenceSpace` is called without `await`, so
the resulting promise object is always truthy and the `if (referenceSpace)`
guard always passes.) -/
structure HostPlace where
  sessionPresent : Bool
  requestAnchorSupported : Bool
deriving DecidableEq, Repr

/-- The data one suspended `handlePlace` invocation holds across its
`await session.requestAnchor(...)` boundaries: the hit matrix at commit
time (passed both as `hitTestResult` and held in the `hitMatrix` state),
and the values of `objectType`, `modelUrl`, `modelScale`,
`useFallbackMode` captured by the closure at the click's render. No
timestamp is captured: the source reads `Date.now()` for the object's id
only inside the `setObjects` updater, after the awaits. -/
structure PendingPlace where
  m : Mat
  type : ObjType
  url : Option String
  scale : ℚ
  fallbackAtCommit : Bool
deriving DecidableEq, Repr

/-- Abstracted `arStatus` messages (the source stores strings; only which
message is showing matters to the claims). -/
inductive StatusTag
  | ready
  | noWebXR
  | checkFailed
  | notSupported
  | arStarted
  | undefinedModeContinue
  | vrModeWarn
  | otherModeStarted
  | inlineStarted
  | fallbackStarted
  | exited
  | failed
deriving DecidableEq, Repr

/-- The mutable `App` state the placement claims are about. -/
structure AppState where
  objects : List Obj
  hitMatrix : Option Mat
  isHit : Bool
  isARSession : Bool
  useFallbackMode : Bool
  objectType : ObjType
  modelUrl : Option String
  modelScale : ℚ
  arStatus : StatusTag
  pending : List PendingPlace
deriving DecidableEq, Repr

/-- Initial `App` state (the `useState` initialisers,
App.jsx:462-479). -/
def initState : AppState :=
  { objects := []
    hitMatrix := none
    isHit := false
    isARSession := false
    useFallbackMode := false
    objectType := .model
    modelUrl := some "model.glb"
    modelScale := 1
    arStatus := .ready
    pending := [] }

/-- Events of the single-threaded dispatch loop.

* `frame s` — a render frame in which `NativeWebXRHitTest` delivers hit
  sample `s` and `Reticle`'s `useFrame` updates visibility/arming;
* `clickStart now host` — the user clicks the reticle's click target,
  starting `handlePlace`; `host` describes the session as `handlePlace`
  sees it. When `handlePlace` reaches an `await session.requestAnchor`
  the invocation suspends, joining the in-flight list `pending`;
  otherwise it completes synchronously, and `now` is the `Date.now()`
  read inside the `setObjects` updater during that same click task;
* `anchorResolve i now r1 r2` — the `i`-th suspended `handlePlace`
  resumes (promise resolution order is not FIFO, so the index is free):
  `r1` is the outcome of `requestAnchor(hitTestResult, referenceSpace)`
  and `r2` of the position-based retry (`none` = the promise rejected /
  threw), and `now` is the `Date.now()` read inside the `setObjects`
  updater at resume time — this, not the click time, becomes the id;
* `exitAR` — `handleExitAR` or the session's `end` event;
* `clear` — the Clear Scene button (`clearScene`). -/
inductive Event
  | frame (sample : Option Mat)
  | clickStart (now : Nat) (host : HostPlace)
  | anchorResolve (i : Nat) (now : Nat) (r1 r2 : Option Nat)
  | exitAR
  | clear
deriving DecidableEq, Repr

/-- The object literal `handlePlace` appends (App.jsx:1011-1020). -/
def mkPlacedObject (now : Nat) (type : ObjType) (url : Option String)
    (scale : ℚ) (fallback : Bool) (anchor : Option Nat) (fixed : Option Mat)
    (pos : Vec3 ℚ) : Obj :=
  { id := now
    type := type
    position := pos
    anchored := fallback || anchor.isSome || fixed.isSome
    anchor := anchor
    hitMatrix := fixed
    modelUrl := if type = .model then url else none
    scale := scale }

/-- The tail of `handlePlace` after its `await`s resolve
(App.jsx:962-1021): the anchor is the first successful `requestAnchor`
outcome; when both fail the saved hit matrix is cloned into
`fixedHitMatrix`; either way exactly one `PlacedObject` is appended,
stamped with `id: Date.now()` evaluated inside the `setObjects` updater
at resume time (`now`). -/
def finishPlace (p : PendingPlace) (now : Nat) (r1 r2 : Option Nat) : Obj :=
  let anchor := r1 <|> r2
  let fixed : Option Mat := if anchor.isSome then none else some p.m
  mkPlacedObject now p.type p.url p.scale p.fallbackAtCommit anchor fixed
    (setFromMatrixPosition p.m)

/-- `clearScene` (App.jsx:1054-1056). -/
def clearScene (s : AppState) : AppState := { s with objects := [] }

/-- One dispatch step. `clickStart` is guarded the way the source is: the
`Reticle` is mounted only when `isARSession && !useFallbackMode`
(App.jsx:1495) and its click handler fires `onPlace` only while `isHit`
(App.jsx:87). Inside `handlePlace`, anchor creation is attempted only
with a session present and `requestAnchor` available — the invocation
then suspends and joins the in-flight list, each suspended invocation
resuming independently later; otherwise the placement completes
synchronously, degrading to the saved hit matrix (with a session) or to
a plain unanchored object (without one). -/
def step (s : AppState) : Event → AppState
  | .frame sample => { s with hitMatrix := sample, isHit := sample.isSome }
  | .clickStart now host =>
    if s.isARSession && !s.useFallbackMode && s.isHit then
      match s.hitMatrix with
      | some m =>
        if host.sessionPresent then
          if host.requestAnchorSupported then
            let p : PendingPlace :=
              ⟨m, s.objectType, s.modelUrl, s.modelScale, s.useFallbackMode⟩
            { s with pending := s.pending ++ [p] }
          else
            { s with objects := s.objects ++
                [mkPlacedObject now s.objectType s.modelUrl s.modelScale
                  s.useFallbackMode none (some m) (setFromMatrixPosition m)] }
        else
          { s with objects := s.objects ++
              [mkPlacedObject now s.objectType s.modelUrl s.modelScale
                s.useFallbackMode none none (setFromMatrixPosition m)] }
      | none => s
    else s
  | .anchorResolve i now r1 r2 =>
    match s.pending[i]? with
    | some p => { s with objects := s.objects ++ [finishPlace p now r1 r2],
                         pending := s.pending.eraseIdx i }
    | none => s
  | .exitAR => { s with isARSession := false, useFallbackMode := false, arStatus := .exited }
  | .clear => clearScene s

/-- Run a sequence of events from a state. -/
def runFrom (s : AppState) : List Event → AppState
  | [] => s
  | e :: tr => runFrom (step s e) tr

/-- The `Date.now()` values read by the `setObjects` updaters along a
trace: the times of the synchronous commits and of the resumptions of
suspended commits (the two places the source stamps `id: Date.now()`). -/
def appendTimes : List Event → List Nat
  | [] => []
  | .clickStart now _ :: tr => now :: appendTimes tr
  | .anchorResolve _ now _ _ :: tr => now :: appendTimes tr
  | _ :: tr => appendTimes tr

/-- The hit-test sample an event delivers, if it is a frame. -/
def sampleOf : Event → Option (Option Mat)
  | .frame sample => some sample
  | _ => none

/-- The most recent hit-test sample delivered in a trace, if any frame
occurred. -/
def lastSample : List Event → Option (Option Mat)
  | [] => none
  | e :: tr =>
    match lastSample tr with
    | some x => some x
    | none => sampleOf e

/-- `XRSession.mode` values distinguished by `handleEnterAR`. -/
inductive XRMode
  | immersiveAR
  | immersiveVR
  | inlineMode
  | otherMode
deriving DecidableEq, Repr

/-- Host behaviour during one `handleEnterAR` call (App.jsx:624-786):
whether `navigator.xr` exists; the `isSessionSupported` result (`none` =
it threw); whether `store.enterAR` throws; the session found in the store
afterwards (`none` = null session, `some mode?` with `mode? = none` for
an undefined mode); the `inline` retry's result (`none` = it threw); and
whether `startFallbackMode` succeeds (camera stream acquired). -/
structure EnterCtx where
  xrAvailable : Bool
  supportCheck : Option Bool
  enterARThrows : Bool
  sessionAfterEnter : Option (Option XRMode)
  inlineResult : Option (Option XRMode)
  fallbackOk : Bool
deriving DecidableEq, Repr

/-- Outcome of `handleEnterAR` on the session flags and status. -/
structure EnterOutcome where
  isARSession : Bool
  useFallbackMode : Bool
  status : StatusTag
deriving DecidableEq, Repr

/-- `handleEnterAR` (App.jsx:624-786), branch for branch:
no WebXR / failed or negative support check → abort; `store.enterAR`
succeeds → branch on the session's `mode` (undefined mode logs a warning
and continues as a live AR session; `immersive-ar`, `immersive-vr` and
any other defined mode all continue with distinct status messages), null
session → try fallback; `store.enterAR` throws → retry with an `inline`
session (an undefined inline mode ends that session and starts fallback;
a defined one continues), and if that throws too → fallback; a failed
fallback leaves the app out of AR with a failure status. -/
def handleEnterAR (c : EnterCtx) : EnterOutcome :=
  if !c.xrAvailable then ⟨false, false, .noWebXR⟩
  else
    match c.supportCheck with
    | none => ⟨false, false, .checkFailed⟩
    | some false => ⟨false, false, .notSupported⟩
    | some true =>
      if !c.enterARThrows then
        match c.sessionAfterEnter with
        | some modeOpt =>
          match modeOpt with
          | none => ⟨true, false, .undefinedModeContinue⟩
          | some .immersiveAR => ⟨true, false, .arStarted⟩
          | some .immersiveVR => ⟨true, false, .vrModeWarn⟩
          | some .inlineMode => ⟨true, false, .otherModeStarted⟩
          | some .otherMode => ⟨true, false, .otherModeStarted⟩
        | none =>
          if c.fallbackOk then ⟨true, true, .fallbackStarted⟩
          else ⟨false, false, .failed⟩
      else
        match c.inlineResult with
        | some modeOpt =>
          match modeOpt with
          | none =>
            if c.fallbackOk then ⟨true, true, .fallbackStarted⟩
            else ⟨false, false, .failed⟩
          | some _ => ⟨true, false, .inlineStarted⟩
        | none =>
          if c.fallbackOk then ⟨true, true, .fallbackStarted⟩
          else ⟨false, false, .failed⟩

/-- Apply an `handleEnterAR` outcome to the app state. -/
def applyEnter (s : AppState) (c : EnterCtx) : AppState :=
  let o := handleEnterAR c
  { s with isARSession := o.isARSession, useFallbackMode := o.useFallbackMode,
           arStatus := o.status }

/-- A host context for a clean immersive-AR session start. -/
def ctxAR : EnterCtx :=
  ⟨true, some true, false, some (some .immersiveAR), none, true⟩

/-- A host context whose session is created but reports an undefined
mode. -/
def ctxUndef : EnterCtx :=
  ⟨true, some true, false, some none, none, true⟩

/-! ## Theorems -/

/-- C1 (confirmed): for a placed object whose record is the FixedMatrix
variant — no native anchor, a hit-test matrix saved at placement time —
`ARAnchoredModel`'s per-frame output equals the stored matrix, unchanged,
for every frame context (in particular for every viewer pose), and the
`Model` dispatch does route such an object to `ARAnchoredModel`. -/
theorem fixedMatrix_output_constant (m prev : Mat) (ctx : XRFrameCtx) :
    arAnchoredModelFrame none (some m) ctx prev = m ∧
    modelDispatch none (some m) true false = RenderPath.arAnchored := by
  refine ⟨?_, rfl⟩
  unfold arAnchoredModelFrame
  cases ctx.xrFramePresent <;> cases ctx.referenceSpacePresent <;> rfl

/-- C10 (confirmed): every dispatch step either leaves the placed-object
list unchanged, appends exactly one object at the end (so every earlier
object and all of its fields are untouched), or is the explicit scene
clear, which empties the list; a synchronous accepted commit appends
exactly the object `handlePlace` builds, the resumption of a suspended
commit appends exactly the object built from the anchor results, and
`clearScene` removes all objects at once. -/
theorem place_appends_clear_empties :
    (∀ (s : AppState) (e : Event),
        (step s e).objects = s.objects ∨
        (∃ o, (step s e).objects = s.objects ++ [o]) ∨
        (e = Event.clear ∧ (step s e).objects = [])) ∧
    (∀ (s : AppState) (now : Nat) (host : HostPlace) (m : Mat),
        s.isARSession = true → s.useFallbackMode = false → s.isHit = true →
        s.hitMatrix = some m →
        host.requestAnchorSupported = false ∨ host.sessionPresent = false →
        (step s (Event.clickStart now host)).objects
          = s.objects ++ [mkPlacedObject now s.objectType s.modelUrl s.modelScale false none
              (if host.sessionPresent then some m else none) (setFromMatrixPosition m)]) ∧
    (∀ (s : AppState) (i now : Nat) (r1 r2 : Option Nat) (p : PendingPlace),
        s.pending[i]? = some p →
        (step s (Event.anchorResolve i now r1 r2)).objects
          = s.objects ++ [finishPlace p now r1 r2]) ∧
    (∀ s : AppState, (step s Event.clear).objects = []) := by
  refine ⟨?_, ?_, ?_, fun s => rfl⟩
  · intro s e
    cases e with
    | frame sample => exact Or.inl rfl
    | clear => exact Or.inr (Or.inr ⟨rfl, rfl⟩)
    | exitAR => exact Or.inl rfl
    | anchorResolve i now r1 r2 =>
      cases hp : s.pending[i]? with
      | none => exact Or.inl (by simp [step, hp])
      | some p => exact Or.inr (Or.inl ⟨finishPlace p now r1 r2, by simp [step, hp]⟩)
    | clickStart now host =>
      by_cases hg : (s.isARSession && !s.useFallbackMode && s.isHit) = true
      · cases hm : s.hitMatrix with
        | none => exact Or.inl (by simp [step, hg, hm])
        | some m =>
          by_cases hs : host.sessionPresent = true
          · by_cases ha : host.requestAnchorSupported = true
            · exact Or.inl (by simp [step, hg, hm, hs, ha])
            · exact Or.inr (Or.inl
                ⟨mkPlacedObject now s.objectType s.modelUrl s.modelScale
                    s.useFallbackMode none (some m) (setFromMatrixPosition m),
                  by simp [step, hg, hm, hs, ha]⟩)
          · exact Or.inr (Or.inl
              ⟨mkPlacedObject now s.objectType s.modelUrl s.modelScale
                  s.useFallbackMode none none (setFromMatrixPosition m),
                by simp [step, hg, hm, hs]⟩)
      · exact Or.inl (by simp [step, hg])
  · intro s now host m hAR hFB hHit hM hsync
    rcases hsync with ha | hs
    · by_cases hs : host.sessionPresent = true <;>
        simp [step, hM, ha, hs, hAR, hFB, hHit]
    · simp [step, hM, hs, hAR, hFB, hHit]
  · intro s i now r1 r2 p hp
    simp [step, hp]

/-- An armed native-AR state with a concrete hit matrix, used by the
witnesses below. -/
def armedState : AppState := { initState with
  isARSession := true
  isHit := true
  hitMatrix := some (matT 1 2 3) }

/-- Witness for C10: a concrete synchronous commit (no session in the
store) appends exactly one plain object. -/
theorem place_appends_clear_empties_witness :
    (step armedState (Event.clickStart 3 ⟨false, false⟩)).objects
      = armedState.objects ++
          [mkPlacedObject 3 armedState.objectType armedState.modelUrl
            armedState.modelScale false none
            (if (HostPlace.mk false false).sessionPresent then some (matT 1 2 3) else none)
            (setFromMatrixPosition (matT 1 2 3))] :=
  place_appends_clear_empties.2.1 armedState 3 ⟨false, false⟩ (matT 1 2 3) rfl rfl rfl
    rfl (Or.inl rfl)

/-- C4 (confirmed): in the native-AR tier, when `requestAnchor` is absent
the commit completes synchronously with a FixedMatrix record holding the
commit-time hit matrix verbatim; when `requestAnchor` is present but both
anchor-creation attempts throw (both resolutions are `none`), the resumed
commit likewise appends a FixedMatrix record with that matrix verbatim.
In both cases the commit succeeds (exactly one `PlacedObject` with
`anchor = none`, `hitMatrix = some m` is appended) and the user-facing
status is untouched — the failures are only logged. -/
theorem anchorFailure_fixedMatrix_fallback
    (s : AppState) (m : Mat) (now : Nat) (host : HostPlace)
    (hAR : s.isARSession = true) (hFB : s.useFallbackMode = false)
    (hHit : s.isHit = true) (hM : s.hitMatrix = some m)
    (hSess : host.sessionPresent = true) :
    (host.requestAnchorSupported = false →
      (step s (Event.clickStart now host)).objects
        = s.objects ++ [mkPlacedObject now s.objectType s.modelUrl s.modelScale false none
            (some m) (setFromMatrixPosition m)] ∧
      (step s (Event.clickStart now host)).arStatus = s.arStatus) ∧
    (host.requestAnchorSupported = true →
      (step s (Event.clickStart now host)).objects = s.objects ∧
      (step s (Event.clickStart now host)).pending
        = s.pending ++ [⟨m, s.objectType, s.modelUrl, s.modelScale, false⟩] ∧
      (step s (Event.clickStart now host)).arStatus = s.arStatus ∧
      ∀ (s2 : AppState) (i now2 : Nat),
        s2.pending[i]? = some ⟨m, s.objectType, s.modelUrl, s.modelScale, false⟩ →
        (step s2 (Event.anchorResolve i now2 none none)).objects
          = s2.objects ++ [mkPlacedObject now2 s.objectType s.modelUrl s.modelScale false
              none (some m) (setFromMatrixPosition m)] ∧
        (step s2 (Event.anchorResolve i now2 none none)).arStatus = s2.arStatus) := by
  constructor
  · intro ha
    constructor <;> simp [step, hAR, hFB, hHit, hM, hSess, ha]
  · intro ha
    refine ⟨?_, ?_, ?_, ?_⟩
    · simp [step, hAR, hFB, hHit, hM, hSess, ha]
    · simp [step, hAR, hFB, hHit, hM, hSess, ha]
    · simp [step, hAR, hFB, hHit, hM, hSess, ha]
    · intro s2 i now2 hp2
      constructor <;> simp [step, hp2, finishPlace, Option.orElse]

/-- An armed native-AR state that also holds a suspended commit for the
matrix `matT 4 0 (-1)`, used by the C4 witness. -/
def armedPendingState : AppState := { initState with
  isARSession := true
  isHit := true
  hitMatrix := some (matT 4 0 (-1))
  pending := [⟨matT 4 0 (-1), ObjType.model, some "model.glb", 1, false⟩] }

/-- An armed native-AR state for the matrix `matT 4 0 (-1)` with no
suspended commit. -/
def armedState4 : AppState := { initState with
  isARSession := true
  isHit := true
  hitMatrix := some (matT 4 0 (-1)) }

/-- Witness for C4: a concrete commit with `requestAnchor` present and
both creation attempts rejected ends as a FixedMatrix record. -/
theorem anchorFailure_fixedMatrix_fallback_witness :
    (step armedPendingState (Event.anchorResolve 0 9 none none)).objects
      = armedPendingState.objects ++
          [mkPlacedObject 9 armedState4.objectType armedState4.modelUrl
            armedState4.modelScale false none (some (matT 4 0 (-1)))
            (setFromMatrixPosition (matT 4 0 (-1)))] :=
  (((anchorFailure_fixedMatrix_fallback armedState4
      (matT 4 0 (-1)) 9 ⟨true, true⟩ rfl rfl rfl rfl rfl).2 rfl).2.2.2
    armedPendingState 0 9 rfl).1

/-- C6 counterexample: a commit is suspended at `await
session.requestAnchor`, the session ends (`handleExitAR`), and the anchor
request then resolves — yet a `PlacedObject` is created from the
post-session-end resolution, contradicting the claim that such a result
is discarded. -/
theorem resolveAfterSessionEnd_creates_object :
    (runFrom (applyEnter initState ctxAR)
        [Event.frame (some (matT 1 0 (-2))), Event.clickStart 5 ⟨true, true⟩,
         Event.exitAR, Event.anchorResolve 0 6 (some 7) none]).objects
      = [mkPlacedObject 6 ObjType.model (some "model.glb") 1 false (some 7) none
          ⟨1, 0, -2⟩] ∧
    (runFrom (applyEnter initState ctxAR)
        [Event.frame (some (matT 1 0 (-2))), Event.clickStart 5 ⟨true, true⟩,
         Event.exitAR]).isARSession = false := by
  constructor <;> rfl

/-- C6 (corrected): when a suspended `handlePlace` resumes, it proceeds
unconditionally — the resolved anchor (or the FixedMatrix fallback when
both attempts were rejected) is applied and exactly one `PlacedObject`
(stamped with the resume-time `Date.now()`) is appended, regardless of
the session flags at resume time (in particular after session end); the
rejections are caught inside `handlePlace`, so the resumption is total
and no exception escapes. -/
theorem resolve_applies_regardless_of_session_end
    (s : AppState) (i now : Nat) (r1 r2 : Option Nat) (p : PendingPlace)
    (hp : s.pending[i]? = some p) :
    (step s (Event.anchorResolve i now r1 r2)).objects
      = s.objects ++ [finishPlace p now r1 r2] ∧
    (step s (Event.anchorResolve i now r1 r2)).pending = s.pending.eraseIdx i := by
  constructor <;> simp [step, hp]

/-- A state whose session has ended while a commit is still suspended,
used by the C6 witness. -/
def endedPendingState : AppState := { initState with
  arStatus := .exited
  pending := [⟨matT 1 0 (-2), ObjType.cube, none, 1, false⟩] }

/-- Witness for C6's amended theorem: a concrete resumption in a state
whose session has ended. -/
theorem resolve_applies_regardless_of_session_end_witness :
    (step endedPendingState (Event.anchorResolve 0 6 (some 7) none)).objects
      = endedPendingState.objects
          ++ [finishPlace ⟨matT 1 0 (-2), ObjType.cube, none, 1, false⟩ 6 (some 7) none] :=
  (resolve_applies_regardless_of_session_end endedPendingState 0 6 (some 7) none
    ⟨matT 1 0 (-2), ObjType.cube, none, 1, false⟩ rfl).1

/-- C5 counterexample: a session request that succeeds but reports an
undefined mode makes `handleEnterAR` continue with a live AR session
(`isARSession` set, fallback off) rather than an anchor-skipping degraded
tier; in the resulting state a commit still attempts anchor creation and,
with a capable host, produces a NativeAnchor record (`anchor = some 7`),
not a FixedMatrix record. -/
theorem undefinedMode_not_inlineDegraded :
    handleEnterAR ctxUndef
      = ⟨true, false, StatusTag.undefinedModeContinue⟩ ∧
    (runFrom (applyEnter initState ctxUndef)
        [Event.frame (some (matT 1 0 (-2))), Event.clickStart 100 ⟨true, true⟩,
         Event.anchorResolve 0 100 (some 7) none]).objects
      = [mkPlacedObject 100 ObjType.model (some "model.glb") 1 false (some 7) none
          ⟨1, 0, -2⟩] := by
  constructor <;> rfl

/-- C5 (corrected/amended): a successfully created session that reports
an undefined mode is kept as the active AR session — same tier flags as
`immersive-ar`, with only a warning status — and anchor creation is still
attempted on placement: with a session and `requestAnchor` present, a
commit in that state suspends on the anchor-creation request instead of
skipping straight to FixedMatrix. -/
theorem undefinedMode_continues_as_nativeAR
    (c : EnterCtx) (hxr : c.xrAvailable = true) (hsup : c.supportCheck = some true)
    (hth : c.enterARThrows = false) (hsess : c.sessionAfterEnter = some none) :
    handleEnterAR c = ⟨true, false, StatusTag.undefinedModeContinue⟩ ∧
    ∀ (m : Mat) (now : Nat) (host : HostPlace), host.sessionPresent = true →
      host.requestAnchorSupported = true →
      (runFrom (applyEnter initState c)
          [Event.frame (some m), Event.clickStart now host]).pending
        = [⟨m, ObjType.model, some "model.glb", 1, false⟩] := by
  have h1 : handleEnterAR c = ⟨true, false, StatusTag.undefinedModeContinue⟩ := by
    simp [handleEnterAR, hxr, hsup, hth, hsess]
  refine ⟨h1, ?_⟩
  intro m now host hS hA
  simp [runFrom, applyEnter, h1, step, initState, hS, hA]

/-- Witness for C5's amended theorem at the concrete undefined-mode host
context. -/
theorem undefinedMode_continues_as_nativeAR_witness :
    (runFrom (applyEnter initState ctxUndef)
        [Event.frame (some (matT 2 0 (-1))), Event.clickStart 42 ⟨true, true⟩]).pending
      = [⟨matT 2 0 (-1), ObjType.model, some "model.glb", 1, false⟩] :=
  (undefinedMode_continues_as_nativeAR ctxUndef rfl rfl rfl rfl).2
    (matT 2 0 (-1)) 42 ⟨true, true⟩ rfl rfl

/-- Every event other than a frame leaves the reticle arming flag
untouched (clicks, resumptions, exit and clear never write `isHit`). -/
lemma step_isHit_of_ne_frame (s : AppState) (e : Event)
    (h : ∀ smp, e ≠ Event.frame smp) : (step s e).isHit = s.isHit := by
  cases e with
  | frame smp => exact absurd rfl (h smp)
  | clickStart now host =>
    by_cases hg : (s.isARSession && !s.useFallbackMode && s.isHit) = true
    · cases hm : s.hitMatrix with
      | none => simp [step, hg, hm]
      | some m =>
        by_cases hs : host.sessionPresent = true
        · by_cases ha : host.requestAnchorSupported = true <;>
            simp [step, hg, hm, hs, ha]
        · simp [step, hg, hm, hs]
    · simp [step, hg]
  | anchorResolve i now r1 r2 =>
    cases hp : s.pending[i]? with
    | none => simp [step, hp]
    | some p => simp [step, hp]
  | exitAR => rfl
  | clear => rfl

/-- A trace containing no frame event cannot change the arming flag. -/
lemma runFrom_isHit_of_no_frame :
    ∀ (tr : List Event) (s : AppState),
      lastSample tr = none → (runFrom s tr).isHit = s.isHit := by
  intro tr
  induction tr with
  | nil => intro s _; rfl
  | cons e tr ih =>
    intro s h
    cases hlt : lastSample tr with
    | some x => simp [lastSample, hlt] at h
    | none =>
      cases e with
      | frame smp => simp [lastSample, hlt, sampleOf] at h
      | clickStart now host =>
        rw [runFrom, ih _ hlt, step_isHit_of_ne_frame]
        intro smp hc; cases hc
      | anchorResolve i now r1 r2 =>
        rw [runFrom, ih _ hlt, step_isHit_of_ne_frame]
        intro smp hc; cases hc
      | exitAR =>
        rw [runFrom, ih _ hlt, step_isHit_of_ne_frame]
        intro smp hc; cases hc
      | clear =>
        rw [runFrom, ih _ hlt, step_isHit_of_ne_frame]
        intro smp hc; cases hc

/-- After a trace whose most recent hit-test sample is `none`, the
reticle is not armed. -/
lemma runFrom_isHit_false_of_lastSample_none :
    ∀ (tr : List Event) (s : AppState),
      lastSample tr = some none → (runFrom s tr).isHit = false := by
  intro tr
  induction tr with
  | nil => intro s h; simp [lastSample] at h
  | cons e tr ih =>
    intro s h
    cases hlt : lastSample tr with
    | some x =>
      have hx : x = none := by
        simp [lastSample, hlt] at h
        exact h
      subst hx
      exact ih (step s e) hlt
    | none =>
      cases e with
      | frame smp =>
        have hsmp : smp = none := by
          simp [lastSample, hlt, sampleOf] at h
          exact h
        subst hsmp
        rw [runFrom, runFrom_isHit_of_no_frame tr _ hlt]
        rfl
      | clickStart now host => simp [lastSample, hlt, sampleOf] at h
      | anchorResolve i now r1 r2 => simp [lastSample, hlt, sampleOf] at h
      | exitAR => simp [lastSample, hlt, sampleOf] at h
      | clear => simp [lastSample, hlt, sampleOf] at h

/-- C3 (confirmed): after any event trace in which the most recent hit
sample was `None` (or no sample was ever delivered, starting from an
unarmed state), a placement commit is a no-op — it neither appends a
placed object nor starts an anchor request. The same holds for
`ARScene.placeObject` with no current hit matrix. -/
theorem commit_not_armed_is_noop :
    (∀ (tr : List Event) (s0 : AppState) (now : Nat) (host : HostPlace),
        s0.isHit = false →
        (lastSample tr = some none ∨ lastSample tr = none) →
        (step (runFrom s0 tr) (Event.clickStart now host)).objects
          = (runFrom s0 tr).objects ∧
        (step (runFrom s0 tr) (Event.clickStart now host)).pending
          = (runFrom s0 tr).pending) ∧
    (∀ (vis : Bool) (ty : ObjType) (url : Option String) (objs : List SceneObj),
        placeObject none vis ty url objs = objs) := by
  constructor
  · intro tr s0 now host h0 hlast
    have hh : (runFrom s0 tr).isHit = false := by
      rcases hlast with hlast | hlast
      · exact runFrom_isHit_false_of_lastSample_none tr s0 hlast
      · rw [runFrom_isHit_of_no_frame tr s0 hlast]; exact h0
    constructor <;> simp [step, hh]
  · intro vis ty url objs
    rfl

/-- Witness for C3: after a frame with no surface hit, a concrete click
changes nothing. -/
theorem commit_not_armed_is_noop_witness :
    (step (runFrom initState [Event.frame none]) (Event.clickStart 1 ⟨true, true⟩)).objects
      = (runFrom initState [Event.frame none]).objects ∧
    (step (runFrom initState [Event.frame none]) (Event.clickStart 1 ⟨true, true⟩)).pending
      = (runFrom initState [Event.frame none]).pending :=
  commit_not_armed_is_noop.1 [Event.frame none] initState 1 ⟨true, true⟩ rfl (Or.inl rfl)

/-- Trace: two synchronous commits in the same millisecond (`Date.now()`
returns `100` for both `setObjects` updaters). -/
def trSameMsSync : List Event :=
  [Event.frame (some (matT 1 0 (-2))), Event.clickStart 100 ⟨false, false⟩,
   Event.frame (some (matT 2 0 (-2))), Event.clickStart 100 ⟨false, false⟩]

/-- Trace: two commits clicked at distinct times (milliseconds 1 and 2)
that both suspend on `await session.requestAnchor`; both requests are
rejected and resolve during the same later millisecond (100), so both
`setObjects` updaters read `Date.now() = 100`. -/
def trSameMsResume : List Event :=
  [Event.frame (some (matT 1 0 (-2))), Event.clickStart 1 ⟨true, true⟩,
   Event.frame (some (matT 2 0 (-2))), Event.clickStart 2 ⟨true, true⟩,
   Event.anchorResolve 0 100 none none, Event.anchorResolve 0 100 none none]

/-- C9 counterexample: the id is the `Date.now()` read when the append
runs, so it is not unique across rapid successive placements. Two
synchronous commits in the same millisecond, and likewise two commits
clicked at distinct times whose suspended anchor requests resolve in the
same millisecond, each produce two distinct `PlacedObject`s (their stored
matrices differ) carrying the same id. -/
theorem duplicate_timestamp_ids :
    (((runFrom (applyEnter initState ctxAR) trSameMsSync).objects.map Obj.id)
        = [100, 100] ∧
      (runFrom (applyEnter initState ctxAR) trSameMsSync).objects.Nodup) ∧
    (((runFrom (applyEnter initState ctxAR) trSameMsResume).objects.map Obj.id)
        = [100, 100] ∧
      (runFrom (applyEnter initState ctxAR) trSameMsResume).objects.Nodup) := by
  exact ⟨⟨rfl, by decide⟩, ⟨rfl, by decide⟩⟩

/-- Appending an object whose id is fresh preserves distinctness of the
ids and their freshness for the remaining append times. -/
lemma appended_ids_ok (objs : List Obj) (o : Obj) (ts : List Nat)
    (h2 : (objs.map Obj.id).Nodup) (hfresh : o.id ∉ objs.map Obj.id)
    (hts : ∀ n ∈ objs.map Obj.id, n ∉ ts) (hid : o.id ∉ ts) :
    ((objs ++ [o]).map Obj.id).Nodup ∧
      ∀ n ∈ (objs ++ [o]).map Obj.id, n ∉ ts := by
  constructor
  · rw [List.map_append]
    refine List.Nodup.append h2 ?_ ?_
    · exact List.nodup_singleton _
    · intro a ha hb
      simp only [List.map_cons, List.map_nil, List.mem_singleton] at hb
      subst hb
      exact hfresh ha
  · intro n hn
    rw [List.map_append] at hn
    rcases List.mem_append.mp hn with h | h
    · exact hts n h
    · simp only [List.map_cons, List.map_nil, List.mem_singleton] at h
      subst h
      exact hid

/-- Invariant for C9's amended claim: along any trace whose append-time
stamps are pairwise distinct and fresh for the starting state, the placed
objects' ids stay pairwise distinct. -/
lemma ids_nodup_run :
    ∀ (tr : List Event) (s : AppState),
      (appendTimes tr).Nodup → (s.objects.map Obj.id).Nodup →
      (∀ n ∈ s.objects.map Obj.id, n ∉ appendTimes tr) →
      ((runFrom s tr).objects.map Obj.id).Nodup := by
  intro tr
  induction tr with
  | nil => intro s _ h2 _; exact h2
  | cons e tr ih =>
    intro s h1 h2 h3
    cases e with
    | frame smp => exact ih _ h1 h2 h3
    | exitAR => exact ih _ h1 h2 h3
    | clear =>
      refine ih _ h1 List.nodup_nil ?_
      intro n hn
      simp [step, clearScene] at hn
    | anchorResolve i now r1 r2 =>
      have h1' : (appendTimes tr).Nodup := (List.nodup_cons.mp h1).2
      have hnow : now ∉ appendTimes tr := (List.nodup_cons.mp h1).1
      have h3' : ∀ n ∈ s.objects.map Obj.id, n ∉ appendTimes tr := by
        intro n hn hc
        exact h3 n hn (List.mem_cons_of_mem _ hc)
      have hfresh : now ∉ s.objects.map Obj.id := by
        intro hc
        exact h3 now hc (List.mem_cons_self _ _)
      cases hp : s.pending[i]? with
      | none =>
        have hstep : step s (Event.anchorResolve i now r1 r2) = s := by simp [step, hp]
        rw [runFrom, hstep]
        exact ih _ h1' h2 h3'
      | some p =>
        have hobj : (step s (Event.anchorResolve i now r1 r2)).objects
            = s.objects ++ [finishPlace p now r1 r2] := by
          simp [step, hp]
        have hok := appended_ids_ok s.objects (finishPlace p now r1 r2)
          (appendTimes tr) h2 hfresh h3' hnow
        refine ih _ h1' ?_ ?_
        · rw [hobj]; exact hok.1
        · rw [hobj]; exact hok.2
    | clickStart now host =>
      have h1' : (appendTimes tr).Nodup := (List.nodup_cons.mp h1).2
      have hnow : now ∉ appendTimes tr := (List.nodup_cons.mp h1).1
      have h3' : ∀ n ∈ s.objects.map Obj.id, n ∉ appendTimes tr := by
        intro n hn hc
        exact h3 n hn (List.mem_cons_of_mem _ hc)
      have hfresh : now ∉ s.objects.map Obj.id := by
        intro hc
        exact h3 now hc (List.mem_cons_self _ _)
      by_cases hg : (s.isARSession && !s.useFallbackMode && s.isHit) = true
      · cases hm : s.hitMatrix with
        | none =>
          have hstep : step s (Event.clickStart now host) = s := by simp [step, hg, hm]
          rw [runFrom, hstep]
          exact ih _ h1' h2 h3'
        | some m =>
          by_cases hs : host.sessionPresent = true
          · by_cases ha : host.requestAnchorSupported = true
            · -- the invocation suspends: the object list is unchanged
              have hobj : (step s (Event.clickStart now host)).objects = s.objects := by
                simp [step, hg, hm, hs, ha]
              refine ih _ h1' ?_ ?_
              · rw [hobj]; exact h2
              · rw [hobj]; exact h3'
            · -- synchronous append with a session
              have hobj : (step s (Event.clickStart now host)).objects
                  = s.objects ++ [mkPlacedObject now s.objectType s.modelUrl
                      s.modelScale s.useFallbackMode none (some m)
                      (setFromMatrixPosition m)] := by
                simp [step, hg, hm, hs, ha]
              have hok := appended_ids_ok s.objects
                (mkPlacedObject now s.objectType s.modelUrl s.modelScale
                  s.useFallbackMode none (some m) (setFromMatrixPosition m))
                (appendTimes tr) h2 hfresh h3' hnow
              refine ih _ h1' ?_ ?_
              · rw [hobj]; exact hok.1
              · rw [hobj]; exact hok.2
          · -- synchronous append without a session
            have hobj : (step s (Event.clickStart now host)).objects
                = s.objects ++ [mkPlacedObject now s.objectType s.modelUrl
                    s.modelScale s.useFallbackMode none none
                    (setFromMatrixPosition m)] := by
              simp [step, hg, hm, hs]
            have hok := appended_ids_ok s.objects
              (mkPlacedObject now s.objectType s.modelUrl s.modelScale
                s.useFallbackMode none none (setFromMatrixPosition m))
              (appendTimes tr) h2 hfresh h3' hnow
            refine ih _ h1' ?_ ?_
            · rw [hobj]; exact hok.1
            · rw [hobj]; exact hok.2
      · have hstep : step s (Event.clickStart now host) = s := by simp [step, hg]
        rw [runFrom, hstep]
        exact ih _ h1' h2 h3'

/-- C9 (corrected/amended): a placed object's id is the `Date.now()`
value read when its append runs — for a commit suspended on anchor
creation this is the resume time, not the click time; ids of
simultaneously existing objects are pairwise distinct provided all
placement appends (synchronous commits and resumptions of suspended
commits) in the session occur at pairwise distinct timestamps. -/
theorem ids_unique_of_distinct_append_times (tr : List Event)
    (h : (appendTimes tr).Nodup) :
    ((runFrom (applyEnter initState ctxAR) tr).objects.map Obj.id).Nodup :=
  ids_nodup_run tr (applyEnter initState ctxAR) h
    (by simp [applyEnter, initState])
    (by simp [applyEnter, initState])

/-- Witness for C9's amended theorem: a concrete trace mixing a suspended
commit resumed at millisecond 2 with a synchronous commit at millisecond
3, all append times distinct, yields pairwise distinct ids. -/
theorem ids_unique_of_distinct_append_times_witness :
    ((runFrom (applyEnter initState ctxAR)
        [Event.frame (some (matT 1 0 (-2))), Event.clickStart 1 ⟨true, true⟩,
         Event.anchorResolve 0 2 (some 7) none,
         Event.clickStart 3 ⟨false, false⟩]).objects.map Obj.id).Nodup :=
  ids_unique_of_distinct_append_times _ (by decide)

/-- Euler angles that are all zero give the identity quaternion. -/
lemma quatFromEulerYXZ_zero : quatFromEulerYXZ 0 0 0 = ⟨0, 0, 0, 1⟩ := by
  simp [quatFromEulerYXZ]

/-- Applying the inverse of the identity quaternion leaves a vector
unchanged. -/
lemma applyQuaternion_invert_id (v : Vec3 ℝ) :
    applyQuaternion (quatInvert ⟨0, 0, 0, 1⟩) v = v := by
  simp [applyQuaternion, quatInvert]

/-- C2 (confirmed): for an OrientationRelative record,
`FallbackAnchoredModel` outputs exactly the inverse of the rotation
component of the camera pose applied to `worldPosition − position`; and
in the concrete scenario — `worldPosition = (0,0,-3)`, reference camera
position `(0,0,0)`, all orientation angles zero through the full sensor
pipeline — the output local position is `(0,0,-3)`. -/
theorem orientationRelative_frame_formula :
    (∀ (wp : Vec3 ℝ) (cp : CameraPose) (q : Quat ℝ) (prev : Vec3 ℝ),
        cp.quaternion = some q →
        fallbackAnchoredModelFrame (some wp) (some cp) prev
          = applyQuaternion (quatInvert q) (vsub wp cp.position)) ∧
    (composedPoseUpdate ⟨some 0, some 0, some 0⟩ = some (handlePoseUpdate 0 0 0) ∧
     (handlePoseUpdate 0 0 0).position = ⟨0, 0, 0⟩ ∧
     ∀ prev : Vec3 ℝ,
       fallbackAnchoredModelFrame (some ⟨0, 0, -3⟩) (some (handlePoseUpdate 0 0 0)) prev
         = ⟨0, 0, -3⟩) := by
  refine ⟨?_, ?_, rfl, ?_⟩
  · intro wp cp q prev h
    simp [fallbackAnchoredModelFrame, h]
  · simp [composedPoseUpdate, handleOrientation]
  · intro prev
    have hq : (handlePoseUpdate 0 0 0).quaternion = some (quatFromEulerYXZ 0 0 0) := by
      simp [handlePoseUpdate]
    simp only [fallbackAnchoredModelFrame, hq, quatFromEulerYXZ_zero]
    have hsub : vsub (⟨0, 0, -3⟩ : Vec3 ℝ) (handlePoseUpdate 0 0 0).position
        = ⟨0, 0, -3⟩ := by
      simp [vsub, handlePoseUpdate]
    rw [hsub, applyQuaternion_invert_id]

/-- Witness for C2: the general formula applied at a concrete camera pose
carrying the identity quaternion. -/
theorem orientationRelative_frame_formula_witness :
    fallbackAnchoredModelFrame (some ⟨1, 2, 3⟩)
        (some ⟨⟨0, 0, 0⟩, 0, 0, 0, some ⟨0, 0, 0, 1⟩⟩) ⟨9, 9, 9⟩
      = applyQuaternion (quatInvert ⟨0, 0, 0, 1⟩)
          (vsub ⟨1, 2, 3⟩ (CameraPose.position ⟨⟨0, 0, 0⟩, 0, 0, 0, some ⟨0, 0, 0, 1⟩⟩)) :=
  orientationRelative_frame_formula.1 ⟨1, 2, 3⟩ ⟨⟨0, 0, 0⟩, 0, 0, 0, some ⟨0, 0, 0, 1⟩⟩
    ⟨0, 0, 0, 1⟩ ⟨9, 9, 9⟩ rfl

/-- C7 (code bug): the composed sensor pipeline applies the degrees-to-
radians conversion twice. `DeviceOrientationTracker` already multiplies
each angle by pi/180 before invoking the pose-update callback, and
`handlePoseUpdate` multiplies by pi/180 again, so an event with
`alpha = 90` degrees yields a yaw euler component of pi^2/360 — not the
pi/2 a single conversion (as the spec describes) would give. -/
theorem orientation_double_conversion :
    composedPoseUpdate ⟨some 90, some 0, some 0⟩
      = some (handlePoseUpdate (degToRad 90) 0 0) ∧
    (handlePoseUpdate (degToRad 90) 0 0).rotY = Real.pi ^ 2 / 360 ∧
    Real.pi ^ 2 / 360 ≠ degToRad 90 := by
  refine ⟨?_, ?_, ?_⟩
  · simp [composedPoseUpdate, handleOrientation, degToRad]
  · simp only [handlePoseUpdate, degToRad]
    ring
  · intro h
    rw [degToRad] at h
    nlinarith [Real.pi_gt_three, Real.pi_lt_four]

/-- C8 (confirmed): if the device-orientation API is absent, or the
platform permission prompt is required and does not resolve to a grant
(denied, any other response, or a rejected promise), the orientation
tracker never installs its event listener, so the pose-update callback is
never invoked for any sequence of sensor events — the source emits
nothing for the rest of the session. -/
theorem denied_or_absent_emits_nothing (c : OrientCtx) (events : List OrientEvent)
    (h : c.apiPresent = false ∨
      (c.permissionRequestPresent = true ∧ c.permissionGranted ≠ some true)) :
    trackerEmissions c events = [] := by
  have hinst : listenerInstalled c = false := by
    rcases h with h | ⟨h1, h2⟩
    · simp [listenerInstalled, h]
    · simp only [listenerInstalled, h1, Bool.not_true, Bool.false_or]
      cases hg : c.permissionGranted with
      | none => simp
      | some b =>
        cases b with
        | true => exact absurd hg h2
        | false => simp
  simp [trackerEmissions, hinst]

/-- Witness for C8: a denied permission prompt suppresses the callback
for a concrete event. -/
theorem denied_or_absent_emits_nothing_witness :
    trackerEmissions ⟨true, true, some false⟩ [⟨some 10, some 20, some 30⟩] = [] :=
  denied_or_absent_emits_nothing ⟨true, true, some false⟩ [⟨some 10, some 20, some 30⟩]
    (Or.inr ⟨rfl, by decide⟩)

end WebXR
